import Mathlib

/-! Verification of the data-exploration script `explore_pesticide_data.py`.
The script scans a fixed `data/` directory, probes each candidate file with a
sequence of tabular decoders (parquet, csv, excel, parquet-with-pyarrow for
gzip names), analyzes the first dataset that decodes, and writes a JSON
report, a Markdown report and a 100-row CSV sample. Decoding by the pandas
library is modelled extensionally: a candidate file records what each reader
returns on it. Everything downstream of the readers is translated directly
from the source. -/

namespace PesticideExplore

/-- A cell of a tabular dataset: a value in a generic string rendering, or
missing (pandas NaN / None). -/
abbrev Cell := Option String

/-- One named column of a decoded dataset: its name, its pandas dtype
rendered as a string (the dtype string "object" marks textual columns), and
its cell values in row order. -/
structure Column where
  name : String
  dtype : String
  values : List Cell
deriving DecidableEq

/-- An in-memory tabular dataset (a pandas DataFrame): an ordered list of
named columns with aligned rows. -/
structure DataFrame where
  cols : List Column
deriving DecidableEq

/-- The row count of a dataframe, `df.shape[0]`; all columns of a pandas
dataframe carry the same number of rows, recorded here by the first column. -/
def nrows (df : DataFrame) : Nat :=
  match df.cols with
  | [] => 0
  | c :: _ => c.values.length

/-- The dataset invariant: every column carries the same number of rows. -/
def aligned (df : DataFrame) : Prop :=
  ∀ c ∈ df.cols, c.values.length = nrows df

/-- The pandas `Series.dropna()`: the non-missing values of a column, in
order. -/
def dropna (vs : List Cell) : List String :=
  vs.filterMap id

/-- Column access `df[name]`: the values of the column called `name`. -/
def getCol (df : DataFrame) (name : String) : List Cell :=
  match df.cols.find? (fun c => c.name == name) with
  | some c => c.values
  | none => []

/-- The pandas `df.head(n)`: the first `n` rows of every column. -/
def head (df : DataFrame) (n : Nat) : DataFrame :=
  ⟨df.cols.map (fun c => { c with values := c.values.take n })⟩

/-- The Python `str.endswith`, as a suffix test on the character list of the
string. (The built-in `String.endsWith` is defined by well-founded recursion
and does not reduce inside the kernel, so the model uses the character
list.) -/
def strEndsWith (s suffix : String) : Bool :=
  suffix.data.isSuffixOf s.data

/-- A candidate file of the `data/` directory. Decoding is modelled
extensionally: each field records what the corresponding pandas reader
returns on this file, `some df` on success and `none` when the reader raises
(the script catches every reader exception). The field
`read_parquet_pyarrow` is the outcome of `pd.read_parquet` with the explicit
pyarrow engine, tried only for names with the `.gzip` suffix. -/
structure File where
  name : String
  read_parquet : Option DataFrame
  read_csv : Option DataFrame
  read_excel : Option DataFrame
  read_parquet_pyarrow : Option DataFrame
deriving DecidableEq

/-- The function `try_read_file` (source lines 30 to 67): probe one file with
`pd.read_parquet`, then `pd.read_csv`, then `pd.read_excel`, and, only when
the path ends in `.gzip`, `pd.read_parquet` with the pyarrow engine; each
failure is swallowed and the next reader tried; the first success is
returned with its format tag, and `none` when every attempted reader fails.
The suffix test on the path `data/<name>` is equivalent to the test on the
bare name, since the directory part holds no dot. -/
def try_read_file (f : File) : Option (DataFrame × String) :=
  match f.read_parquet with
  | some df => some (df, "parquet")
  | none =>
    match f.read_csv with
    | some df => some (df, "csv")
    | none =>
      match f.read_excel with
      | some df => some (df, "excel")
      | none =>
        if strEndsWith f.name ".gzip" then
          match f.read_parquet_pyarrow with
          | some df => some (df, "parquet.gzip")
          | none => none
        else
          none

/-- One iteration of the text-column loop in `analyze_dataframe` (source
lines 90 to 99): a column is appended to the accumulator when its dtype is
"object" and `dropna().head(2)` of the column is non-empty. -/
def analyzeStep (text_columns : List String) (col : Column) : List String :=
  if col.dtype == "object" then
    let samples := (dropna col.values).take 2
    if samples.length > 0 then text_columns ++ [col.name] else text_columns
  else
    text_columns

/-- The function `analyze_dataframe` (source lines 69 to 101): its returned
value, the list of textual columns of the dataframe, built by the loop over
the columns in dataset order. -/
def analyze_dataframe (df : DataFrame) : List String :=
  df.cols.foldl analyzeStep []

/-- The structured report built by `save_report` (source lines 105 to 121):
the fields of the JSON document. `dtypes` and `sample_data` are
insertion-ordered association lists, as Python dicts preserve insertion
order. -/
structure Report where
  file_name : String
  file_format : String
  rows : Nat
  columns : Nat
  column_names : List String
  dtypes : List (String × String)
  text_columns : List String
  sample_data : List (String × List String)
deriving DecidableEq

/-- The report built by `save_report` (source lines 103 to 121): shape from
`df.shape`, column names and dtypes in column order, and `sample_data`
holding, for each of the first 5 textual columns, `dropna().head(3)` of that
column as a list. -/
def save_report (df : DataFrame) (text_columns : List String)
    (file_name file_format : String) : Report :=
  { file_name := file_name,
    file_format := file_format,
    rows := nrows df,
    columns := df.cols.length,
    column_names := df.cols.map Column.name,
    dtypes := df.cols.map (fun c => (c.name, c.dtype)),
    text_columns := text_columns,
    sample_data :=
      (text_columns.take 5).map (fun col => (col, (dropna (getCol df col)).take 3)) }

/-- How `to_csv` renders one cell: a missing value becomes the empty field. -/
def cell : Cell → String
  | some s => s
  | none => ""

/-- The CSV sample written by `df.head(100).to_csv(..., index=False)`
(source line 184), as its list of lines: the header row of column names
followed by one row per dataset row, cells in column order. -/
def csvLines (df : DataFrame) : List (List String) :=
  df.cols.map Column.name ::
    (List.range (nrows df)).map
      (fun i => df.cols.map (fun c => cell (c.values.getD i none)))

/-- The directory scanned by `find_data_files`: either missing, or present
together with its listing. -/
inductive DataDir
  | missing
  | present (files : List File)
deriving DecidableEq

/-- The function `find_data_files` (source lines 11 to 28): the empty list
when the `data/` directory does not exist, otherwise the directory listing;
no exception is raised in either case. -/
def find_data_files : DataDir → List File
  | DataDir.missing => []
  | DataDir.present files => files

/-- The file-probing loop of `main` (source lines 170 to 192): call
`try_read_file` on each candidate in listing order, stopping at the first
success (the `break`). Returns the names of the files actually attempted,
paired with the first successful decode, if any. -/
def processFiles : List File → List String × Option (File × DataFrame × String)
  | [] => ([], none)
  | f :: rest =>
    match try_read_file f with
    | some (df, fmt) => ([f.name], some (f, df, fmt))
    | none =>
      let r := processFiles rest
      (f.name :: r.1, r.2)

/-- The three output files, in the order the script writes them: the JSON
report (line 124), the Markdown report (line 128), the CSV sample
(line 184). -/
def writeSequence : List String :=
  ["data_analysis_report.json", "data_analysis_report.md", "pesticide_data_sample.csv"]

/-- The observable outcome of one run of `main`: which console guidance
block was printed, which candidates were attempted, the structured report
and the CSV sample when produced, and the output files written. The run
of the model is total, reflecting the normal exit of the script on every
non-raising path. -/
structure RunResult where
  noFilesSuggestions : Bool
  failureGuidance : Bool
  attempted : List String
  report : Option Report
  sampleCsv : Option (List (List String))
  writtenFiles : List String
deriving DecidableEq

/-- The function `main` (source lines 154 to 199): list the candidates; with
an empty listing print the download suggestions and return; otherwise probe
the candidates in order and, at the first success, analyze, save the reports
and the CSV sample, and stop; the `for` loop paired with an `else` prints
the total-failure guidance exactly when the loop finished with no success. -/
def main (d : DataDir) : RunResult :=
  let files := find_data_files d
  if files.isEmpty then
    { noFilesSuggestions := true, failureGuidance := false, attempted := [],
      report := none, sampleCsv := none, writtenFiles := [] }
  else
    let attempted := (processFiles files).1
    match (processFiles files).2 with
    | some (f, df, fmt) =>
      let text_columns := analyze_dataframe df
      { noFilesSuggestions := false, failureGuidance := false, attempted := attempted,
        report := some (save_report df text_columns f.name fmt),
        sampleCsv := some (csvLines (head df 100)),
        writtenFiles := writeSequence }
    | none =>
      { noFilesSuggestions := false, failureGuidance := true, attempted := attempted,
        report := none, sampleCsv := none, writtenFiles := [] }

/-- Outcome of the write phase that follows a successful analysis: the
output files completely written, and whether the process aborted with an
uncaught error. -/
structure WritePhase where
  completed : List String
  aborted : Bool
deriving DecidableEq

/-- The write phase of the script under an environment in which the write of
the file at index `failAt` of `writeSequence` raises an I/O error (`none`
means no write fails). No write in `save_report` or `main` sits inside an
exception handler, so the failing write aborts the run: the files written
before it are already complete and closed, while the failing file and the
later ones are not produced. An index past the sequence means no write
fails. -/
def runWrites (failAt : Option Nat) : WritePhase :=
  match failAt with
  | none => ⟨writeSequence, false⟩
  | some k =>
    if k < writeSequence.length then ⟨writeSequence.take k, true⟩
    else ⟨writeSequence, false⟩

/-- The Format Prober attempt list as the spec states it: columnar-binary
(parquet), delimited-text (csv), spreadsheet (excel), and, only for a
filename carrying the compression suffix, parquet with the explicit codec.
Each entry pairs the decoder outcome with its format tag. -/
def specProbeAttempts (f : File) : List (Option DataFrame × String) :=
  [(f.read_parquet, "parquet"), (f.read_csv, "csv"), (f.read_excel, "excel")] ++
    (if strEndsWith f.name ".gzip" then [(f.read_parquet_pyarrow, "parquet.gzip")] else [])

/-- The test `analyzeStep` applies to a column, as a predicate: dtype
"object" with at least one non-missing value. -/
def isTextColumn (c : Column) : Bool :=
  c.dtype == "object" && c.values.any Option.isSome

/-- A dataframe with a single all-missing textual column. -/
def nullTextDf : DataFrame :=
  ⟨[⟨"notes", "object", [none, none]⟩]⟩

/-- A small two-column dataframe used as a concrete decode result below. -/
def sampleDf : DataFrame :=
  ⟨[⟨"id", "int64", [some "1", some "2"]⟩,
    ⟨"name", "object", [some "atrazine", none]⟩]⟩

/-- A candidate file no reader can decode. -/
def badFile : File :=
  ⟨"mystery.bin", none, none, none, none⟩

/-- A candidate file that `pd.read_csv` decodes to `sampleDf`. -/
def csvFile : File :=
  ⟨"pesticides.csv", none, some sampleDf, none, none⟩

/-! Helper lemmas, shared by several of the theorems below. -/

lemma dropna_ne_nil (vs : List Cell) :
    dropna vs ≠ [] ↔ vs.any Option.isSome = true := by
  simp [dropna, List.filterMap_eq_nil_iff, List.any_eq_true,
    Option.isSome_iff_ne_none]

lemma analyzeStep_eq (acc : List String) (c : Column) :
    analyzeStep acc c = if isTextColumn c then acc ++ [c.name] else acc := by
  simp only [analyzeStep, isTextColumn, Bool.and_eq_true]
  by_cases hd : c.dtype == "object"
  · by_cases hs : c.values.any Option.isSome = true
    · have h0 : dropna c.values ≠ [] := (dropna_ne_nil c.values).mpr hs
      simp [hd, hs, h0]
    · have h0 : dropna c.values = [] := by
        by_contra hne
        exact hs ((dropna_ne_nil c.values).mp hne)
      simp [hd, hs, h0]
  · simp [hd]

lemma foldl_analyzeStep (l : List Column) (acc : List String) :
    l.foldl analyzeStep acc = acc ++ (l.filter isTextColumn).map Column.name := by
  induction l generalizing acc with
  | nil => simp
  | cons c rest ih =>
    rw [List.foldl_cons, analyzeStep_eq]
    by_cases h : isTextColumn c
    · simp [h, ih]
    · simp [h, ih]

lemma analyze_eq_filter (df : DataFrame) :
    analyze_dataframe df = (df.cols.filter isTextColumn).map Column.name := by
  unfold analyze_dataframe
  simpa using foldl_analyzeStep df.cols []

lemma processFiles_all_fail (fs : List File)
    (h : ∀ f ∈ fs, try_read_file f = none) :
    processFiles fs = (fs.map File.name, none) := by
  induction fs with
  | nil => rfl
  | cons f rest ih =>
    have hf : try_read_file f = none := h f (List.mem_cons_self _ _)
    have hrest : ∀ g ∈ rest, try_read_file g = none :=
      fun g hg => h g (List.mem_cons_of_mem _ hg)
    simp [processFiles, hf, ih hrest]

/-! Theorems about the claims. -/

/-- Claim C2: the Format Prober equals first-success search over the fixed
attempt list of the spec: parquet, then csv, then excel, then, only for a
name with the `.gzip` suffix, parquet with the explicit codec; failed
attempts are swallowed, and the result is the first decoded dataframe with
its format tag, or `none` when every attempt fails. -/
theorem try_read_file_eq_first_success (f : File) :
    try_read_file f =
      (specProbeAttempts f).findSome? (fun a => a.1.map (fun df => (df, a.2))) := by
  obtain ⟨n, p, c, e, g⟩ := f
  cases p with
  | some df => rfl
  | none =>
  cases c with
  | some df => rfl
  | none =>
  cases e with
  | some df => rfl
  | none =>
  cases hb : strEndsWith n ".gzip" with
  | false =>
    simp [try_read_file, specProbeAttempts, hb, List.findSome?_cons]
  | true =>
    cases g with
    | some df => simp [try_read_file, specProbeAttempts, hb, List.findSome?_cons]
    | none => simp [try_read_file, specProbeAttempts, hb, List.findSome?_cons]

/-- Counterexample to claim C3: `nullTextDf` has one column of textual
(object) kind, but its values are all missing, so the textual-columns list
of the Analyzer is empty: its length is 0, not 1. -/
theorem all_null_text_column_not_counted :
    (nullTextDf.cols.filter (fun c => c.dtype == "object")).length = 1 ∧
    (analyze_dataframe nullTextDf).length = 0 := by
  constructor <;> rfl

/-- Claim C3 (amended): the textual-columns list produced by the Analyzer
has length equal to the number of columns of object dtype that carry at
least one non-missing value. -/
theorem text_columns_length (df : DataFrame) :
    (analyze_dataframe df).length = (df.cols.filter isTextColumn).length := by
  rw [analyze_eq_filter, List.length_map]

/-- Claim C4: the textual-columns list is exactly the names of the
object-dtype columns with at least one non-missing value, in dataset column
order. -/
theorem text_columns_spec (df : DataFrame) :
    analyze_dataframe df = (df.cols.filter isTextColumn).map Column.name :=
  analyze_eq_filter df

/-- Counterexample to claim C1: with the listing `[badFile, csvFile]` the
first candidate fails to decode in every format, yet the program goes on to
probe, and decode, the second candidate, and never prints the total-failure
guidance. -/
theorem first_failure_does_not_stop_probing :
    try_read_file badFile = none ∧
    (main (DataDir.present [badFile, csvFile])).attempted =
      ["mystery.bin", "pesticides.csv"] ∧
    (main (DataDir.present [badFile, csvFile])).failureGuidance = false := by
  refine ⟨rfl, ?_, ?_⟩ <;> rfl

/-- Claim C1 (amended): when the first candidate file fails to decode in
every format the program does not stop: it continues probing the remaining
candidates in listing order, and it prints the total-failure guidance
exactly when every remaining candidate also fails. -/
theorem first_failure_continues_to_next (f : File) (rest : List File)
    (h : try_read_file f = none) :
    (main (DataDir.present (f :: rest))).attempted =
      f.name :: (processFiles rest).1 ∧
    ((main (DataDir.present (f :: rest))).failureGuidance = true ↔
      (processFiles rest).2 = none) := by
  have hp : processFiles (f :: rest) =
      (f.name :: (processFiles rest).1, (processFiles rest).2) := by
    simp [processFiles, h]
  cases hr : (processFiles rest).2 with
  | none => simp [main, find_data_files, hp, hr]
  | some t => simp [main, find_data_files, hp, hr]

/-- Witness for the amended claim C1 at a concrete listing. -/
theorem first_failure_continues_to_next_witness :
    try_read_file badFile = none ∧
    ((main (DataDir.present [badFile, csvFile])).attempted =
        badFile.name :: (processFiles [csvFile]).1 ∧
      ((main (DataDir.present [badFile, csvFile])).failureGuidance = true ↔
        (processFiles [csvFile]).2 = none)) :=
  ⟨rfl, first_failure_continues_to_next badFile [csvFile] rfl⟩

/-- Claim C5: when the Analyzer found `M` textual columns and the column
names are unique (so the association-list model of the Python dict is
faithful), the `sample_data` of the report has exactly `min M 5` entries,
keyed by the first five textual columns in order, and each entry holds at
most 3 values, all drawn from the non-missing values of its column. -/
theorem sample_data_spec (df : DataFrame) (file_name file_format : String)
    (h : (df.cols.map Column.name).Nodup) :
    ((save_report df (analyze_dataframe df) file_name file_format).sample_data).length
        = min (analyze_dataframe df).length 5 ∧
    ((save_report df (analyze_dataframe df) file_name file_format).sample_data).map
        Prod.fst = (analyze_dataframe df).take 5 ∧
    ∀ p ∈ (save_report df (analyze_dataframe df) file_name file_format).sample_data,
      p.2.length ≤ 3 ∧ ∀ v ∈ p.2, v ∈ dropna (getCol df p.1) := by
  refine ⟨?_, ?_, ?_⟩
  · simp [save_report, List.length_take, Nat.min_comm]
  · show (((analyze_dataframe df).take 5).map
        (fun col => (col, (dropna (getCol df col)).take 3))).map Prod.fst
      = (analyze_dataframe df).take 5
    rw [List.map_map]
    simp [Function.comp_def]
  · intro p hp
    simp only [save_report, List.mem_map] at hp
    obtain ⟨col, hcol, rfl⟩ := hp
    refine ⟨by simp [List.length_take], ?_⟩
    intro v hv
    exact List.mem_of_mem_take hv

/-- Witness for claim C5 at a concrete dataframe. -/
theorem sample_data_spec_witness :
    (sampleDf.cols.map Column.name).Nodup ∧
    (((save_report sampleDf (analyze_dataframe sampleDf) "pesticides.csv"
          "csv").sample_data).length
        = min (analyze_dataframe sampleDf).length 5 ∧
      ((save_report sampleDf (analyze_dataframe sampleDf) "pesticides.csv"
          "csv").sample_data).map Prod.fst = (analyze_dataframe sampleDf).take 5 ∧
      ∀ p ∈ (save_report sampleDf (analyze_dataframe sampleDf) "pesticides.csv"
          "csv").sample_data,
        p.2.length ≤ 3 ∧ ∀ v ∈ p.2, v ∈ dropna (getCol sampleDf p.1)) :=
  ⟨by decide, sample_data_spec sampleDf "pesticides.csv" "csv" (by decide)⟩

/-- Claim C6: for an aligned dataframe (the dataset invariant) the CSV
sample written from `df.head(100)` has exactly `min (nrows df) 100` data
rows after the single header row, the header lists the column names in
dataset order, and every line holds one cell per source column. -/
theorem sample_csv_shape (df : DataFrame) (h : aligned df) :
    (csvLines (head df 100)).length = min (nrows df) 100 + 1 ∧
    (csvLines (head df 100)).head? = some (df.cols.map Column.name) ∧
    ∀ r ∈ csvLines (head df 100), r.length = df.cols.length := by
  have hn : nrows (head df 100) = min (nrows df) 100 := by
    cases hc : df.cols with
    | nil => simp [nrows, head, hc]
    | cons c cs => simp [nrows, head, hc, List.length_take, Nat.min_comm]
  have hname : (head df 100).cols.map Column.name = df.cols.map Column.name := by
    simp [head, List.map_map]
  refine ⟨?_, ?_, ?_⟩
  · simp [csvLines, hn, Nat.add_comm]
  · simp [csvLines, hname]
  · intro r hr
    rcases List.mem_cons.mp hr with hhd | htl
    · subst hhd
      simp [head]
    · rcases List.mem_map.mp htl with ⟨i, _, rfl⟩
      simp [head]

/-- Witness for claim C6 at a concrete dataframe. -/
theorem sample_csv_shape_witness :
    aligned sampleDf ∧
    ((csvLines (head sampleDf 100)).length = min (nrows sampleDf) 100 + 1 ∧
      (csvLines (head sampleDf 100)).head? = some (sampleDf.cols.map Column.name) ∧
      ∀ r ∈ csvLines (head sampleDf 100), r.length = sampleDf.cols.length) :=
  ⟨by unfold aligned; decide, sample_csv_shape sampleDf (by unfold aligned; decide)⟩

/-- Claim C7: when the listing is non-empty and no candidate decodes in any
format, the run prints the total-failure guidance, writes none of the three
output files, and produces no report and no sample; the model is total, so
the run ends normally. -/
theorem total_failure_guidance (fs : List File) (hne : fs ≠ [])
    (hall : ∀ f ∈ fs, try_read_file f = none) :
    (main (DataDir.present fs)).failureGuidance = true ∧
    (main (DataDir.present fs)).writtenFiles = [] ∧
    (main (DataDir.present fs)).report = none ∧
    (main (DataDir.present fs)).sampleCsv = none := by
  have hp := processFiles_all_fail fs hall
  cases fs with
  | nil => exact absurd rfl hne
  | cons f rest => simp [main, find_data_files, hp]

/-- Witness for claim C7 at a one-file listing that decodes in no format. -/
theorem total_failure_guidance_witness :
    [badFile] ≠ ([] : List File) ∧ (∀ f ∈ [badFile], try_read_file f = none) ∧
    ((main (DataDir.present [badFile])).failureGuidance = true ∧
      (main (DataDir.present [badFile])).writtenFiles = [] ∧
      (main (DataDir.present [badFile])).report = none ∧
      (main (DataDir.present [badFile])).sampleCsv = none) :=
  ⟨by decide, by decide,
    total_failure_guidance [badFile] (by decide) (by decide)⟩

/-- Claim C8: an empty File Locator result (the directory is missing, or it
holds zero files) raises no error: the run reports the condition with the
suggestions block and terminates with no output file written and no report
or sample produced. -/
theorem empty_locator_result (d : DataDir) (h : find_data_files d = []) :
    (main d).noFilesSuggestions = true ∧
    (main d).writtenFiles = [] ∧
    (main d).report = none ∧
    (main d).sampleCsv = none := by
  simp [main, h]

/-- Witness for claim C8 at the missing directory. -/
theorem empty_locator_result_witness :
    find_data_files DataDir.missing = [] ∧
    ((main DataDir.missing).noFilesSuggestions = true ∧
      (main DataDir.missing).writtenFiles = [] ∧
      (main DataDir.missing).report = none ∧
      (main DataDir.missing).sampleCsv = none) :=
  ⟨rfl, empty_locator_result DataDir.missing rfl⟩

/-- Counterexample to claim C9: when the I/O failure strikes the second
write, the Markdown report, the run aborts uncaught, yet the JSON report
written first is already complete and usable, refuting the part of the
claim that no output file of the run is complete and usable. -/
theorem write_failure_leaves_json_complete :
    (runWrites (some 1)).aborted = true ∧
    "data_analysis_report.json" ∈ (runWrites (some 1)).completed := by
  constructor
  · rfl
  · simp [runWrites, writeSequence]

/-- Claim C9 (amended): an I/O failure at any write of the output sequence
is uncaught and aborts the process; the files written before the failing
write remain complete, while the failing and later files are not produced,
so only a failure on the very first write leaves no complete output. -/
theorem write_failure_aborts (k : Nat) (h : k < writeSequence.length) :
    (runWrites (some k)).aborted = true ∧
    (runWrites (some k)).completed = writeSequence.take k := by
  simp [runWrites, h]

/-- Witness for the amended claim C9 at the first write. -/
theorem write_failure_aborts_witness :
    0 < writeSequence.length ∧
    ((runWrites (some 0)).aborted = true ∧
      (runWrites (some 0)).completed = writeSequence.take 0) :=
  ⟨by decide, write_failure_aborts 0 (by decide)⟩

/-- Claim C10: whenever a candidate file decodes, the row and column counts
recorded in the structured report equal the shape of the decoded
dataframe. -/
theorem report_shape_roundtrip (d : DataDir) (f : File) (df : DataFrame)
    (fmt : String)
    (h : (processFiles (find_data_files d)).2 = some (f, df, fmt)) :
    ((main d).report).map Report.rows = some (nrows df) ∧
    ((main d).report).map Report.columns = some df.cols.length := by
  cases hd : find_data_files d with
  | nil =>
    rw [hd] at h
    simp [processFiles] at h
  | cons g rest =>
    rw [hd] at h
    simp [main, hd, h, save_report]

/-- Witness for claim C10 at a concrete listing whose single file decodes as
CSV. -/
theorem report_shape_roundtrip_witness :
    (processFiles (find_data_files (DataDir.present [csvFile]))).2 =
      some (csvFile, sampleDf, "csv") ∧
    (((main (DataDir.present [csvFile])).report).map Report.rows =
        some (nrows sampleDf) ∧
      ((main (DataDir.present [csvFile])).report).map Report.columns =
        some sampleDf.cols.length) :=
  ⟨by decide,
    report_shape_roundtrip (DataDir.present [csvFile]) csvFile sampleDf "csv"
      (by decide)⟩

end PesticideExplore
